import Mathlib

/-!
Verification of the geo-deep-learning tiling / dataset-assembly pipeline
(`data_to_tiles.py` and `utils/verifications.py`).

The development shallowly embeds the pure decision logic of the pipeline:

* `tiling_checker` arithmetic (expected tile counts, Python `math.ceil`
  over true division modelled by exact integer arithmetic);
* the reconciliation decision of `main` (lines 303-347) that sets `do_tile`;
* `filter_gdf` over an explicit model of pandas/GeoDataFrame columns and
  Python value equality (int vs str), including the reference-level aliasing
  behaviour of its three return paths;
* the per-pair dataset-assembly step of `main` (lines 410-450): minimum
  tile size, annotation-percentage threshold, stochastic train-to-val
  reassignment (the random draw is an explicit input), manifest lines and
  kept/total counters;
* the record-level dispatch of the assembly loop (lines 395-408);
* `assert_crs_match` and the validation-gate loop of `main` (lines 259-280),
  including the global `no_gt` flag and its effect on label tiling.

File-system, rasterio and solaris effects are modelled as explicit inputs
(actual tile counts on disk, CRS metadata per path, tile file sizes).
-/

namespace DataToTiles

/-! ## Python value model (attribute values are ints or strings) -/

/-- A Python attribute value as found in a label file: either an integer or
a string.  Mirrors the two encodings `filter_gdf` defends against. -/
inductive PyVal where
  | int : Int → PyVal
  | str : String → PyVal
deriving DecidableEq

/-- Python `==` between attribute values: ints compare to ints, strings to
strings, and a cross-type comparison is `False` (as in Python/pandas). -/
def PyVal.pyEq : PyVal → PyVal → Bool
  | .int a, .int b => a == b
  | .str a, .str b => a == b
  | _, _ => false

/-- Python `str(val)`: an int renders to its decimal string, a string is
returned unchanged. -/
def pyStr : PyVal → PyVal
  | .int n => .str (toString n)
  | .str s => .str s

/-- True when the value is stored as a string. -/
def PyVal.isStr : PyVal → Bool
  | .str _ => true
  | _ => false

/-! ## GeoDataFrame model -/

/-- One vector feature: its attribute columns and its geometric area
(used by `gdf.area.sum()` in the assembly step). -/
structure Feature where
  attrs : List (String × PyVal)
  area : ℚ
deriving DecidableEq

/-- A geopandas GeoDataFrame: the set of column names and the features. -/
structure GeoDataFrame where
  columns : List String
  feats : List Feature
deriving DecidableEq

/-- Column access for one feature (`gdf[field]` at that row); a feature
missing the entry behaves as NaN, which is equal to nothing. -/
def Feature.getAttr (ft : Feature) (f : String) : Option PyVal :=
  (ft.attrs.find? (fun p => p.1 == f)).map Prod.snd

/-- Last path segment of a field name: Python `attr_field.split('/')[-1]`
(src line 145). -/
def lastSegment (s : String) : String := (s.splitOn "/").getLastD s

/-- The OR-reduced condition of src lines 147-149: the feature matches if its
value at the field equals one of the accepted values, either natively or
against `str(val)`. -/
def filterMatch (f1 : String) (vals : List PyVal) (ft : Feature) : Bool :=
  vals.any (fun v =>
    match ft.getAttr f1 with
    | some x => x.pyEq v || x.pyEq (pyStr v)
    | none => false)

/-- Branch structure of `filter_gdf` (src lines 141-154).  `none` means the
function returned its input unchanged (no filtering requested at line 143, or
the column is absent even after the namespaced fallback, so the KeyError
handler at line 154 returned the input); `some g` means the filtered deep
copy `g` built at line 150 was returned. -/
def filter_gdf_core (gdf : GeoDataFrame) (attr_field : Option String)
    (attr_vals : Option (List PyVal)) : Option GeoDataFrame :=
  match attr_field, attr_vals with
  | none, _ => none
  | some _, none => none
  | some f, some vals =>
    if f = "" ∨ vals = [] then none
    else
      let f1 := if gdf.columns.contains f then f else lastSegment f
      if gdf.columns.contains f1 then
        some { gdf with feats := gdf.feats.filter (filterMatch f1 vals) }
      else none

/-- `filter_gdf` (src lines 133-154), value level: the filtered deep copy on
the filtering path, the input itself otherwise.  `attr_field = none/""` and
`attr_vals = none/[]` model Python falsiness of `None`, `''` and `[]`. -/
def filter_gdf (gdf : GeoDataFrame) (attr_field : Option String)
    (attr_vals : Option (List PyVal)) : GeoDataFrame :=
  (filter_gdf_core gdf attr_field attr_vals).getD gdf

/-! ## Reference-level model of `filter_gdf` (aliasing of the return paths) -/

/-- A reference to a data frame object in a heap. -/
abbrev Ref := Nat

/-- A heap of GeoDataFrame objects; references are list indices. -/
structure Heap where
  cells : List GeoDataFrame
deriving DecidableEq

/-- Read a reference. -/
def Heap.get (h : Heap) (r : Ref) : Option GeoDataFrame := h.cells[r]?

/-- Mutate the object behind a reference in place. -/
def Heap.set (h : Heap) (r : Ref) (g : GeoDataFrame) : Heap := ⟨h.cells.set r g⟩

/-- Allocate a fresh object (what `.copy(deep=True)` produces at line 150). -/
def Heap.alloc (h : Heap) (g : GeoDataFrame) : Heap × Ref :=
  (⟨h.cells ++ [g]⟩, h.cells.length)

/-- `filter_gdf` at the reference level: the identity path (line 143) and the
caught-KeyError path (line 154) return the input object itself, while the
filtering path (line 150) allocates a deep copy. -/
def filter_gdf_ref (h : Heap) (r : Ref) (attr_field : Option String)
    (attr_vals : Option (List PyVal)) : Heap × Ref :=
  match h.get r with
  | none => (h, r)
  | some gdf =>
    match filter_gdf_core gdf attr_field attr_vals with
    | none => (h, r)
    | some g => h.alloc g

/-! ## Tile-grid arithmetic (`tiling_checker`, src lines 49-73) -/

/-- Python `math.ceil(a / b)` for integers `a`, `b` (true division then
ceiling), expressed over exact integer arithmetic: `-(-a // b)` where `//`
is floor division (Lean Int `/` is floor division for positive `b`). -/
def pyCeilDiv (a b : Int) : Int := -(-a / b)

/-- Src line 64: `tile_stride = tile_size if not tile_stride else tile_stride`
(Python falsiness: `None` and `0` both default to `tile_size`). -/
def strideOrDefault (tile_size : Int) (tile_stride : Option Int) : Int :=
  match tile_stride with
  | none => tile_size
  | some s => if s = 0 then tile_size else s

/-- Src lines 66-68: expected number of tiles for a raster of the given
width and height. -/
def nbExpTiles (width height tile_size : Int) (tile_stride : Option Int) : Int :=
  let s := strideOrDefault tile_size tile_stride
  let tiles_x := 1 + pyCeilDiv (width - tile_size) s
  let tiles_y := 1 + pyCeilDiv (height - tile_size) s
  tiles_x * tiles_y

/-- `tiling_checker` (src lines 49-73).  The directory listing is an effect;
its result (`nb_act_tiles`, the number of files matching the suffix) is an
explicit input.  Returns `(nb_act_tiles, nb_exp_tiles)` as the source does. -/
def tiling_checker (nb_act_tiles : Nat) (width height : Int) (tile_size : Int)
    (tile_stride : Option Int) : Nat × Int :=
  (nb_act_tiles, nbExpTiles width height tile_size tile_stride)

/-- Modelled from the spec (§3, §8): `tiles_per_axis =
1 + ceil((dimension - tile_size) / stride)`, total the product across both
axes, with the ceiling taken over exact rational division.  Stated separately
from `nbExpTiles` so that the code formula can be compared against it. -/
def expectedCountSpec (W H T S : Int) : Int :=
  (1 + ⌈(((W : ℚ) - (T : ℚ)) / (S : ℚ))⌉) * (1 + ⌈(((H : ℚ) - (T : ℚ)) / (S : ℚ))⌉)

/-! ## Reconciliation decision (`main`, src lines 303-347) -/

/-- The value of `do_tile` after the reconciliation block of `main`
(src lines 303-347).  Branches that only log keep `do_tile = true`
exactly as the source does; in particular, in the `no_gt` branch the
`act > exp` case logs "Skipping tiling." but does not clear `do_tile`
(src lines 310-314), while the labelled branch does (src lines 330-336). -/
def reconcileDecision (no_gt : Bool) (act_img_tiles exp_tiles act_gt_tiles : Nat) : Bool :=
  if no_gt then
    if act_img_tiles = exp_tiles then false
    else if act_img_tiles > exp_tiles then true
    else if act_img_tiles > 0 then true
    else true
  else
    if act_img_tiles = act_gt_tiles ∧ act_gt_tiles = exp_tiles then false
    else if act_img_tiles > exp_tiles ∧ act_gt_tiles > exp_tiles then false
    else if act_img_tiles > 0 ∨ act_gt_tiles > 0 then true
    else true

/-! ## Dataset assembly (`main`, src lines 375-450) -/

/-- One line of a dataset manifest file (src lines 436-437 and 445-446):
absolute image-tile path, mask path, integer annotation percentage. -/
structure ManifestLine where
  sat_img : String
  px_mask : String
  annot_pct : Int
deriving DecidableEq

/-- The assembly state: the `datasets_kept` and `datasets_total` dicts
(src lines 375-376, keys "trn", "val", "tst") and the three manifest files
(src line 369, append mode). -/
structure AsmState where
  kept_trn : Nat
  kept_val : Nat
  kept_tst : Nat
  total_trn : Nat
  total_val : Nat
  total_tst : Nat
  man_trn : List ManifestLine
  man_val : List ManifestLine
  man_tst : List ManifestLine
deriving DecidableEq

/-- The empty assembly state at the start of the second pass. -/
def initAsm : AsmState := ⟨0, 0, 0, 0, 0, 0, [], [], []⟩

/-- `datasets_kept[dataset] += 1`.  The dict only has the keys "trn", "val",
"tst"; any other key would raise KeyError in Python and is unreachable for
path-derived split names, so it is mapped to a no-op here. -/
def bumpKept (st : AsmState) (dataset : String) : AsmState :=
  if dataset = "trn" then { st with kept_trn := st.kept_trn + 1 }
  else if dataset = "val" then { st with kept_val := st.kept_val + 1 }
  else if dataset = "tst" then { st with kept_tst := st.kept_tst + 1 }
  else st

/-- `datasets_total[dataset] += 1` (same key discipline as `bumpKept`). -/
def bumpTotal (st : AsmState) (dataset : String) : AsmState :=
  if dataset = "trn" then { st with total_trn := st.total_trn + 1 }
  else if dataset = "val" then { st with total_val := st.total_val + 1 }
  else if dataset = "tst" then { st with total_tst := st.total_tst + 1 }
  else st

/-- Append one line to `dataset_files[dataset]` (same key discipline). -/
def appendMan (st : AsmState) (dataset : String) (line : ManifestLine) : AsmState :=
  if dataset = "trn" then { st with man_trn := st.man_trn ++ [line] }
  else if dataset = "val" then { st with man_val := st.man_val ++ [line] }
  else if dataset = "tst" then { st with man_tst := st.man_tst ++ [line] }
  else st

/-- Python `int()` applied to a rational: truncation toward zero. -/
def pyInt (q : ℚ) : Int := if 0 ≤ q then ⌊q⌋ else ⌈q⌉

/-- The per-pair body of the assembly loop (src lines 410-450) for one
image-tile / label-tile pair.  `dataset` is the split name recovered from the
tile path (src line 415); `annot_perc` is the coverage ratio computed at
src line 427; `random_val` is the value that `np.random.randint(1, 100)`
returned for this pair (src line 430), made an explicit input.  Note that
the source reassigns the local variable `dataset` to "val" before the
`datasets_total[dataset] += 1` at src line 439. -/
def processPair (st : AsmState) (dataset : String) (sat_img_tile out_px_mask : String)
    (sat_size min_raster_tile_size : Nat) (annot_perc : ℚ)
    (min_annot_perc : Int) (random_val val_percent : Int) : AsmState :=
  if sat_size < min_raster_tile_size then st
  else if dataset = "trn" ∨ dataset = "train" then
    if annot_perc * 100 ≥ (min_annot_perc : ℚ) then
      let dataset1 := if random_val < val_percent then "val" else dataset
      let st1 := appendMan st dataset1
        ⟨sat_img_tile, out_px_mask, pyInt (annot_perc * 100)⟩
      let st2 := bumpKept st1 dataset1
      bumpTotal st2 dataset1
    else
      bumpTotal st dataset
  else if dataset = "tst" ∨ dataset = "test" then
    let st1 := appendMan st dataset
      ⟨sat_img_tile, out_px_mask, pyInt (annot_perc * 100)⟩
    let st2 := bumpKept st1 dataset
    bumpTotal st2 dataset
  else st

/-! ## Record-level dispatch of the assembly loop (src lines 395-408) -/

/-- An ASCII apostrophe, used to spell the error text of src line 406. -/
def apos : String := String.singleton (Char.ofNat 39)

/-- The message of the IOError raised at src lines 406-408.  It is built from
the two tile counts only; nothing else appears in it. -/
def mismatchMsg (nImg nGt : Nat) : String :=
  "Number of imagery tiles (" ++ toString nImg ++ ") and label tiles (" ++
    toString nGt ++ ") don" ++ apos ++ "t match"

/-- One row of the input manifest csv (a `SourceRecord`). -/
structure SourceRecord where
  tif : String
  gpkg : Option String
  dataset : String
  aoi : Option String
deriving DecidableEq

/-- How the assembly loop routes one record, given its enumerated image-tile
and label-tile counts (src lines 395-408): imagery-only fallback, fatal
IOError on a count mismatch, or the paired per-tile loop.  `info` is the
record being processed; as in the source, the error message does not use
it. -/
inductive AsmRoute where
  | imageryOnly : AsmRoute
  | fatalMismatch : String → AsmRoute
  | paired : AsmRoute
deriving DecidableEq

/-- The routing condition of src lines 395-408. -/
def recordRoute (info : SourceRecord) (imgs_tiled gts_tiled : Nat) : AsmRoute :=
  if imgs_tiled > 0 ∧ gts_tiled = 0 then .imageryOnly
  else if ¬ imgs_tiled = gts_tiled then .fatalMismatch (mismatchMsg imgs_tiled gts_tiled)
  else .paired

/-! ## Validation gate and CRS check (`assert_crs_match`,
`utils/verifications.py` lines 142-171; `main`, src lines 259-280) -/

/-- Coordinate-reference-system metadata as read from a file: the EPSG code
and whether the CRS is expressible as an EPSG code
(`raster_crs.is_epsg_code`, verifications line 155). -/
structure CrsInfo where
  epsg : Int
  is_epsg_code : Bool
deriving DecidableEq

/-- `assert_crs_match` (verifications lines 142-171): compares the EPSG codes
of the raster and of the ground-truth file.  On any mismatch (or a raster CRS
that has no EPSG code) it logs and returns `False` together with both CRS
objects; it never raises. -/
def assert_crs_match (raster_crs gt_crs : CrsInfo) : Bool × CrsInfo × CrsInfo :=
  if raster_crs.is_epsg_code then
    if raster_crs.epsg ≠ gt_crs.epsg then (false, raster_crs, gt_crs)
    else (true, raster_crs, gt_crs)
  else (false, raster_crs, gt_crs)

/-- The file system as the validation gate sees it: CRS metadata per raster
path and per vector path. -/
structure CrsEnv where
  rasterCrs : String → CrsInfo
  vectorCrs : String → CrsInfo

/-- One iteration of the validation loop of `main` (src lines 269-278),
restricted to its effect on the `no_gt` flag.  When the record has a label
source, `assert_crs_match` is called and its result is discarded
(src line 274); when it has none, `no_gt` is set globally (src line 278).
The band-count checks (src lines 262-268) abort the whole run when violated
and are outside this step. -/
def gateStep (env : CrsEnv) (no_gt : Bool) (info : SourceRecord) : Bool :=
  match info.gpkg with
  | some g =>
    let _ := assert_crs_match (env.rasterCrs info.tif) (env.vectorCrs g)
    no_gt
  | none => true

/-- The `no_gt` flag after the validation loop has run over all records
(src lines 260-278). -/
def no_gt_flag (env : CrsEnv) (records : List SourceRecord) : Bool :=
  records.foldl (gateStep env) false

/-! ## Tiling phase plumbing (`main`, src lines 296-355; `tiling`,
src lines 102-130) -/

/-- Python `Path(p).stem`: file name without its last suffix.  (The
hidden-file corner cases of `pathlib` are not needed for any record the
claims touch.) -/
def pathStem (p : String) : String :=
  let base := (p.splitOn "/").getLastD p
  let parts := base.splitOn "."
  if parts.length ≤ 1 then base
  else String.intercalate "." parts.dropLast

/-- Src line 298: `aoi_name = Path(info['tif']).stem if not info['aoi'] else
info['aoi']` (an empty aoi string is falsy). -/
def aoiName (info : SourceRecord) : String :=
  match info.aoi with
  | none => pathStem info.tif
  | some a => if a = "" then pathStem info.tif else a

/-- `out_tiling_dir` (src lines 81-83). -/
def out_tiling_dir (root dataset aoi_name category : String) : String :=
  root ++ "/" ++ dataset.trim ++ "/" ++ aoi_name.trim ++ "/" ++ category

/-- Src line 301: the label-tile output directory is `None` for every record
as soon as `no_gt` is set, otherwise the `map_img` directory of the record. -/
def outGtDir (no_gt : Bool) (smpls_dir : String) (info : SourceRecord) : Option String :=
  if no_gt then none
  else some (out_tiling_dir smpls_dir info.dataset (aoiName info) "map_img")

/-- The guard of `tiling` (src line 128): the vector tiler runs only when
both a label output directory and a label source are given. -/
def labelTilingRuns (out_label_dir src_label : Option String) : Bool :=
  out_label_dir.isSome && src_label.isSome

/-- Whether the tiling phase of `main` tiles the labels of one record:
the reconciliation decision must have kept `do_tile` (src lines 303-350),
and `tiling` must receive both the label directory (src line 301) and the
record's label source (src lines 352-355). -/
def recordLabelTiled (no_gt : Bool) (info : SourceRecord)
    (act_img_tiles act_gt_tiles exp_tiles : Nat) (smpls_dir : String) : Bool :=
  let do_tile := reconcileDecision no_gt act_img_tiles exp_tiles act_gt_tiles
  do_tile && labelTilingRuns (outGtDir no_gt smpls_dir info) info.gpkg

/-! ## Helper lemmas -/

/-- For a positive divisor, the integer expression `-(-a / b)` computes the
ceiling of the exact rational quotient, i.e. Python `math.ceil(a / b)`. -/
theorem pyCeilDiv_eq_ceil (a b : Int) (hb : 0 < b) :
    pyCeilDiv a b = ⌈((a : ℚ) / (b : ℚ))⌉ := by
  obtain ⟨d, rfl⟩ : ∃ d : ℕ, b = (d : ℤ) := ⟨b.toNat, (Int.toNat_of_nonneg hb.le).symm⟩
  have h1 : ((a : ℚ)) / (((d : ℤ) : ℚ)) = -((((-a : ℤ) : ℚ)) / ((d : ℕ) : ℚ)) := by
    push_cast
    ring
  rw [h1, Int.ceil_neg, Rat.floor_intCast_div_natCast]
  rfl

/-! ## Claims -/

/-- Claim C1 (confirmed): for every raster of width `W` and height `H`, tile
size `T > 0` and stride `S > 0`, the expected tile count returned by
`tiling_checker` equals `tilesX * tilesY` with
`tilesX = 1 + ceil((W - T)/S)` and `tilesY = 1 + ceil((H - T)/S)` (exact
rational ceiling), both when the stride is given and when it defaults to the
tile size. -/
theorem C1_expected_tile_count (n : Nat) (W H T S : Int) (hT : 0 < T) (hS : 0 < S) :
    (tiling_checker n W H T (some S)).2 = expectedCountSpec W H T S ∧
    (tiling_checker n W H T none).2 = expectedCountSpec W H T T := by
  constructor
  · show nbExpTiles W H T (some S) = _
    rw [nbExpTiles, strideOrDefault, expectedCountSpec]
    simp only [if_neg hS.ne']
    rw [pyCeilDiv_eq_ceil _ _ hS, pyCeilDiv_eq_ceil _ _ hS]
    push_cast
    ring_nf
  · show nbExpTiles W H T none = _
    rw [nbExpTiles, strideOrDefault, expectedCountSpec]
    rw [pyCeilDiv_eq_ceil _ _ hT, pyCeilDiv_eq_ceil _ _ hT]
    push_cast
    ring_nf

/-- Witness for C1 at the concrete grid of spec scenario A plus an
overlapping stride: `W = H = 2048`, `T = 1024`, `S = 512`. -/
theorem C1_expected_tile_count_witness :
    (0 : Int) < 1024 ∧ (0 : Int) < 512 ∧
    ((tiling_checker 0 2048 2048 1024 (some 512)).2 = expectedCountSpec 2048 2048 1024 512 ∧
     (tiling_checker 0 2048 2048 1024 none).2 = expectedCountSpec 2048 2048 1024 1024) :=
  ⟨by norm_num, by norm_num,
   C1_expected_tile_count 0 2048 2048 1024 512 (by norm_num) (by norm_num)⟩

/-- Claim C2 (code_bug): on a tile-count overrun the skip-on-overrun policy
is implemented only in the labelled path.  Evaluated at the failing input
(expected 4 tiles, 5 image tiles on disk): with a label source present the
decision skips tiling (`do_tile = false`), but in the no-label path — whose
log message nonetheless says "Skipping tiling." — `do_tile` stays `true`
and the tiling job runs, contradicting the claim and the code's own log. -/
theorem C2_overrun_skips_only_when_labelled :
    reconcileDecision false 5 4 5 = false ∧ reconcileDecision true 5 4 0 = true := by
  decide

/-- Claim C3, counterexample: a kept train pair (annotation 50 % ≥ minimum
0 %) whose draw 3 is below the validation percentage 10 is reassigned to
validation, and its *total* counter is then incremented in the validation
bucket, not in the original train bucket as the claim states
(src line 431 rebinds `dataset` before the `datasets_total` update at
src line 439). -/
theorem C3_reassigned_total_goes_to_val :
    (processPair initAsm "trn" "img.tif" "mask.tif" 10 0 (1/2) 0 3 10).total_val = 1 ∧
    (processPair initAsm "trn" "img.tif" "mask.tif" 10 0 (1/2) 0 3 10).total_trn = 0 := by
  have h50 : ((1/2 : ℚ) * 100 ≥ ((0 : Int) : ℚ)) := by norm_num
  simp [processPair, initAsm, appendMan, bumpKept, bumpTotal, h50]

/-- Claim C3 as amended (the total counter follows the pair to the split it
lands in): for a train pair that passes the size guard, (i) the pair is kept
iff its annotation percentage reaches the configured minimum; (ii) when kept,
it is reassigned to validation exactly when the draw (a uniform integer in
`[1, 99]`) is strictly below the validation percentage; (iii) the kept and
total counters of the split the pair lands in are both incremented; (iv) a
below-threshold pair increments only the train total counter. -/
theorem C3_train_pair_policy (st : AsmState) (img mask : String)
    (sat_size min_sz : Nat) (ap : ℚ) (minap rv vp : Int)
    (hsz : ¬ sat_size < min_sz) (hrv : 1 ≤ rv ∧ rv ≤ 99) :
    (ap * 100 ≥ (minap : ℚ) →
      (rv < vp →
        processPair st "trn" img mask sat_size min_sz ap minap rv vp =
          { st with
              kept_val := st.kept_val + 1
              total_val := st.total_val + 1
              man_val := st.man_val ++ [⟨img, mask, pyInt (ap * 100)⟩] }) ∧
      (¬ rv < vp →
        processPair st "trn" img mask sat_size min_sz ap minap rv vp =
          { st with
              kept_trn := st.kept_trn + 1
              total_trn := st.total_trn + 1
              man_trn := st.man_trn ++ [⟨img, mask, pyInt (ap * 100)⟩] })) ∧
    (¬ ap * 100 ≥ (minap : ℚ) →
      processPair st "trn" img mask sat_size min_sz ap minap rv vp =
        { st with total_trn := st.total_trn + 1 }) := by
  refine ⟨fun hkeep => ⟨fun hre => ?_, fun hre => ?_⟩, fun hkeep => ?_⟩
  · simp [processPair, appendMan, bumpKept, bumpTotal, hsz, hkeep, hre]
  · simp [processPair, appendMan, bumpKept, bumpTotal, hsz, hkeep, hre]
  · simp [processPair, appendMan, bumpKept, bumpTotal, hsz, hkeep]

/-- Witness for C3's amended theorem: size guard passed (10 ≥ 0), draw 3 in
`[1, 99]`, evaluated at annotation 50 %, minimum 0 %, validation
percentage 10. -/
theorem C3_train_pair_policy_witness :
    ¬ (10 : Nat) < 0 ∧ ((1 : Int) ≤ 3 ∧ (3 : Int) ≤ 99) ∧
    (((1/2 : ℚ) * 100 ≥ ((0 : Int) : ℚ) →
      ((3 : Int) < 10 →
        processPair initAsm "trn" "img.tif" "mask.tif" 10 0 (1/2) 0 3 10 =
          { initAsm with
              kept_val := initAsm.kept_val + 1
              total_val := initAsm.total_val + 1
              man_val := initAsm.man_val ++ [⟨"img.tif", "mask.tif", pyInt ((1/2) * 100)⟩] }) ∧
      (¬ (3 : Int) < 10 →
        processPair initAsm "trn" "img.tif" "mask.tif" 10 0 (1/2) 0 3 10 =
          { initAsm with
              kept_trn := initAsm.kept_trn + 1
              total_trn := initAsm.total_trn + 1
              man_trn := initAsm.man_trn ++ [⟨"img.tif", "mask.tif", pyInt ((1/2) * 100)⟩] })) ∧
    (¬ (1/2 : ℚ) * 100 ≥ ((0 : Int) : ℚ) →
      processPair initAsm "trn" "img.tif" "mask.tif" 10 0 (1/2) 0 3 10 =
        { initAsm with total_trn := initAsm.total_trn + 1 })) :=
  ⟨by decide, ⟨by decide, by decide⟩,
   C3_train_pair_policy initAsm "img.tif" "mask.tif" 10 0 (1/2) 0 3 10
     (by decide) ⟨by decide, by decide⟩⟩

/-- Claim C4 (confirmed): for every pair of a test-type record that passes
the size guard, whatever its annotation percentage (including 0), the
assembler keeps the pair: it appends a manifest line with the image path,
the mask path and the integer-truncated annotation percentage to the test
manifest, increments the test kept and total counters, and touches nothing
else — no threshold and no validation reassignment. -/
theorem C4_test_pair_always_kept (st : AsmState) (img mask : String)
    (sat_size min_sz : Nat) (ap : ℚ) (minap rv vp : Int)
    (hsz : ¬ sat_size < min_sz) :
    processPair st "tst" img mask sat_size min_sz ap minap rv vp =
      { st with
          kept_tst := st.kept_tst + 1
          total_tst := st.total_tst + 1
          man_tst := st.man_tst ++ [⟨img, mask, pyInt (ap * 100)⟩] } := by
  simp [processPair, appendMan, bumpKept, bumpTotal, hsz]

/-- Witness for C4 at annotation percentage 0 (spec scenario C). -/
theorem C4_test_pair_always_kept_witness :
    ¬ (5 : Nat) < 0 ∧
    processPair initAsm "tst" "t.tif" "t_mask.tif" 5 0 0 15 50 10 =
      { initAsm with
          kept_tst := initAsm.kept_tst + 1
          total_tst := initAsm.total_tst + 1
          man_tst := initAsm.man_tst ++ [⟨"t.tif", "t_mask.tif", pyInt ((0 : ℚ) * 100)⟩] } :=
  ⟨by decide,
   C4_test_pair_always_kept initAsm "t.tif" "t_mask.tif" 5 0 0 15 50 10 (by decide)⟩

/-- Claim C5, counterexample: the IOError raised on an image/label tile-count
mismatch (8 vs 6) carries a message built from the two counts alone, so two
distinct records produce the very same error — the fatal error does not
identify the offending record. -/
theorem C5_mismatch_error_ignores_record :
    recordRoute ⟨"imageA.tif", some "a.gpkg", "trn", none⟩ 8 6 =
      AsmRoute.fatalMismatch (mismatchMsg 8 6) ∧
    recordRoute ⟨"imageB.tif", some "b.gpkg", "trn", none⟩ 8 6 =
      recordRoute ⟨"imageA.tif", some "a.gpkg", "trn", none⟩ 8 6 ∧
    (⟨"imageA.tif", some "a.gpkg", "trn", none⟩ : SourceRecord) ≠
      ⟨"imageB.tif", some "b.gpkg", "trn", none⟩ := by
  refine ⟨rfl, rfl, by decide⟩

/-- Claim C5 as amended: for every record whose enumerated image-tile and
label-tile counts differ (both counts nonzero), the assembler raises a fatal
IOError that aborts the whole run; its message reports the two tile counts
(but does not name the record). -/
theorem C5_count_mismatch_fatal (info : SourceRecord) (ni ng : Nat)
    (h1 : 0 < ni) (h2 : 0 < ng) (h3 : ni ≠ ng) :
    recordRoute info ni ng = AsmRoute.fatalMismatch (mismatchMsg ni ng) := by
  have ha : ¬ (ni > 0 ∧ ng = 0) := by
    rintro ⟨-, hg⟩
    exact h2.ne' hg
  rw [recordRoute, if_neg ha, if_pos h3]

/-- Witness for C5's amended theorem at the counts of spec scenario D
(8 image tiles, 6 label tiles). -/
theorem C5_count_mismatch_fatal_witness :
    0 < 8 ∧ 0 < 6 ∧ 8 ≠ 6 ∧
    recordRoute ⟨"imageD.tif", some "d.gpkg", "trn", none⟩ 8 6 =
      AsmRoute.fatalMismatch (mismatchMsg 8 6) :=
  ⟨by decide, by decide, by decide,
   C5_count_mismatch_fatal ⟨"imageD.tif", some "d.gpkg", "trn", none⟩ 8 6
     (by decide) (by decide) (by decide)⟩

/-- A file system in which every raster reads as EPSG 4326 and every vector
file as EPSG 2958 — a CRS mismatch for any raster/label pairing. -/
def envMismatch : CrsEnv :=
  ⟨fun _ => ⟨4326, true⟩, fun _ => ⟨2958, true⟩⟩

/-- A labelled record used to exercise the CRS-mismatch path. -/
def recPaired : SourceRecord := ⟨"a.tif", some "a.gpkg", "trn", none⟩

/-- Claim C6, counterexample: for a record whose raster (EPSG 4326) and label
source (EPSG 2958) disagree, the CRS check does return `false` (the error is
surfaced), but the validation gate discards that result, and with no tiles on
disk yet (0 actual, 4 expected) the tiling phase still tiles the record's
raster/label pairing together — the pairing is not halted. -/
theorem C6_mismatched_pairing_still_tiled :
    (assert_crs_match (envMismatch.rasterCrs "a.tif") (envMismatch.vectorCrs "a.gpkg")).1
      = false ∧
    no_gt_flag envMismatch [recPaired] = false ∧
    recordLabelTiled (no_gt_flag envMismatch [recPaired]) recPaired 0 0 4 "/data" = true := by
  refine ⟨rfl, rfl, ?_⟩
  decide

/-- Claim C6 as amended: a CRS mismatch between a record's raster and its
label source is surfaced as an error (`assert_crs_match` logs and returns
`false`), but processing of the pairing is not halted: the validation gate
discards the result and leaves its state untouched, and the tiling phase
still hands the label source to the tiler whenever the reconciliation
decision asks for tiling and no record of the run is unlabelled. -/
theorem C6_crs_mismatch_does_not_halt (env : CrsEnv) (info : SourceRecord)
    (g : String) (b : Bool) (smpls_dir : String) (exp_tiles : Nat)
    (hg : info.gpkg = some g)
    (hcode : (env.rasterCrs info.tif).is_epsg_code = true)
    (hne : (env.rasterCrs info.tif).epsg ≠ (env.vectorCrs g).epsg)
    (hexp : 0 < exp_tiles) :
    (assert_crs_match (env.rasterCrs info.tif) (env.vectorCrs g)).1 = false ∧
    gateStep env b info = b ∧
    recordLabelTiled false info 0 0 exp_tiles smpls_dir = true := by
  refine ⟨?_, ?_, ?_⟩
  · rw [assert_crs_match, if_pos hcode, if_pos hne]
  · rw [gateStep, hg]
  · simp [recordLabelTiled, reconcileDecision, labelTilingRuns, outGtDir, hexp.ne, hg]

/-- Witness for C6's amended theorem on the concrete mismatching file
system. -/
theorem C6_crs_mismatch_does_not_halt_witness :
    recPaired.gpkg = some "a.gpkg" ∧
    (envMismatch.rasterCrs recPaired.tif).is_epsg_code = true ∧
    (envMismatch.rasterCrs recPaired.tif).epsg ≠ (envMismatch.vectorCrs "a.gpkg").epsg ∧
    0 < 4 ∧
    ((assert_crs_match (envMismatch.rasterCrs recPaired.tif)
        (envMismatch.vectorCrs "a.gpkg")).1 = false ∧
     gateStep envMismatch false recPaired = false ∧
     recordLabelTiled false recPaired 0 0 4 "/data" = true) :=
  ⟨rfl, rfl, by decide, by decide,
   C6_crs_mismatch_does_not_halt envMismatch recPaired "a.gpkg" false "/data" 4
     rfl rfl (by decide) (by decide)⟩

/-- Claim C7 (confirmed): the Attribute Filter is the identity whenever the
attribute field or the accepted-values list is absent or empty — the
returned collection is exactly the input. -/
theorem C7_filter_identity_when_unrequested (gdf : GeoDataFrame)
    (attr_field : Option String) (attr_vals : Option (List PyVal))
    (h : attr_field = none ∨ attr_field = some "" ∨
         attr_vals = none ∨ attr_vals = some []) :
    filter_gdf gdf attr_field attr_vals = gdf := by
  rcases h with h | h | h | h <;> subst h
  · rfl
  · cases attr_vals <;> simp [filter_gdf, filter_gdf_core]
  · cases attr_field <;> rfl
  · cases attr_field with
    | none => rfl
    | some f => simp [filter_gdf, filter_gdf_core]

/-- Witness for C7 on a nonempty collection with no accepted values. -/
theorem C7_filter_identity_when_unrequested_witness :
    ((some "cls" : Option String) = none ∨ (some "cls" : Option String) = some "" ∨
     (some [] : Option (List PyVal)) = none ∨ (some [] : Option (List PyVal)) = some []) ∧
    filter_gdf ⟨["cls"], [⟨[("cls", .int 3)], 1⟩]⟩ (some "cls") (some []) =
      ⟨["cls"], [⟨[("cls", .int 3)], 1⟩]⟩ :=
  ⟨Or.inr (Or.inr (Or.inr rfl)),
   C7_filter_identity_when_unrequested ⟨["cls"], [⟨[("cls", .int 3)], 1⟩]⟩
     (some "cls") (some []) (Or.inr (Or.inr (Or.inr rfl)))⟩

/-- A collection whose single feature stores the class attribute as the
number `3`. -/
def gdfNum : GeoDataFrame := ⟨["cls"], [⟨[("cls", PyVal.int 3)], 1⟩]⟩

/-- Claim C8, counterexample: the feature storing `cls = 3` as a number is
kept when filtering against the numeric accepted value `3`, but dropped when
filtering against the equivalent string `"3"` — the two typings do not yield
the same filtered subset, so matching is not type-agnostic in that
direction (the code only adds `str(val)` conditions, never a numeric parse
of a string value). -/
theorem C8_numeric_values_string_accepted_differ :
    filter_gdf gdfNum (some "cls") (some [PyVal.str "3"]) = ⟨["cls"], []⟩ ∧
    filter_gdf gdfNum (some "cls") (some [PyVal.int 3]) = gdfNum ∧
    (⟨["cls"], []⟩ : GeoDataFrame) ≠ gdfNum := by
  decide

/-- `List.any` over a mapped list, for a map that changes the element type. -/
theorem anyMapHet {α β : Type} (l : List α) (f : α → β) (p : β → Bool) :
    (l.map f).any p = l.any (fun a => p (f a)) := by
  induction l with
  | nil => rfl
  | cons a l ih => simp [List.any_cons, ih]

/-- Pointwise core of the one direction that does hold: on a feature whose
attribute values are all stored as strings, matching against integer accepted
values coincides with matching against their decimal strings. -/
theorem filterMatch_int_str (f1 : String) (vals : List Int) (ft : Feature)
    (hstr : ∀ p ∈ ft.attrs, p.2.isStr = true) :
    filterMatch f1 (vals.map PyVal.int) ft =
      filterMatch f1 (vals.map (fun n => PyVal.str (toString n))) ft := by
  unfold filterMatch
  rw [anyMapHet, anyMapHet]
  cases hx : ft.getAttr f1 with
  | none => rfl
  | some x =>
    have hxs : x.isStr = true := by
      rcases hfind : ft.attrs.find? (fun p => p.1 == f1) with _ | p
      · rw [Feature.getAttr, hfind] at hx
        exact absurd hx (by simp)
      · rw [Feature.getAttr, hfind] at hx
        injection hx with hx
        rw [← hx]
        exact hstr p (List.mem_of_find?_eq_some hfind)
    cases x with
    | int n => simp [PyVal.isStr] at hxs
    | str s => simp [PyVal.pyEq, pyStr]

/-- Claim C8 as amended: matching is type-agnostic in one direction only —
for a collection whose attribute values are stored as strings, filtering
against numeric accepted values yields the same filtered subset as filtering
against their string forms.  (The converse direction is false, see the
counterexample: numeric-stored values filtered against string accepted
values match nothing.) -/
theorem C8_string_values_numeric_accepted_agree (gdf : GeoDataFrame) (f : String)
    (vals : List Int)
    (hstr : ∀ ft ∈ gdf.feats, ∀ p ∈ ft.attrs, p.2.isStr = true) :
    filter_gdf gdf (some f) (some (vals.map PyVal.int)) =
      filter_gdf gdf (some f) (some (vals.map (fun n => PyVal.str (toString n)))) := by
  simp only [filter_gdf, filter_gdf_core]
  by_cases hf : f = "" ∨ vals = []
  · rcases hf with hf | hf
    · simp [hf]
    · subst hf
      simp
  · push_neg at hf
    have hc1 : (f = "" ∨ List.map PyVal.int vals = []) = False :=
      eq_false (by simp [hf.1, hf.2])
    have hc2 : (f = "" ∨ List.map (fun n => PyVal.str (toString n)) vals = []) = False :=
      eq_false (by simp [hf.1, hf.2])
    simp only [hc1, hc2, if_false]
    by_cases hcol :
        gdf.columns.contains (if gdf.columns.contains f then f else lastSegment f) = true
    · rw [if_pos hcol, if_pos hcol]
      have hfilter :
          gdf.feats.filter
              (filterMatch (if gdf.columns.contains f then f else lastSegment f)
                (vals.map PyVal.int)) =
            gdf.feats.filter
              (filterMatch (if gdf.columns.contains f then f else lastSegment f)
                (vals.map (fun n => PyVal.str (toString n)))) :=
        List.filter_congr (fun ft hft => filterMatch_int_str _ vals ft (hstr ft hft))
      rw [hfilter]
    · rw [if_neg hcol, if_neg hcol]

/-- Witness for C8's amended theorem: the same class filter, on a collection
that stores `cls = "3"` as a string, filtered against `[3]` and against
`["3"]`. -/
theorem C8_string_values_numeric_accepted_agree_witness :
    (∀ ft ∈ (⟨["cls"], [⟨[("cls", PyVal.str "3")], 1⟩]⟩ : GeoDataFrame).feats,
      ∀ p ∈ ft.attrs, p.2.isStr = true) ∧
    filter_gdf ⟨["cls"], [⟨[("cls", PyVal.str "3")], 1⟩]⟩ (some "cls")
        (some ([3].map PyVal.int)) =
      filter_gdf ⟨["cls"], [⟨[("cls", PyVal.str "3")], 1⟩]⟩ (some "cls")
        (some ([3].map (fun n => PyVal.str (toString n)))) :=
  ⟨by decide,
   C8_string_values_numeric_accepted_agree ⟨["cls"], [⟨[("cls", PyVal.str "3")], 1⟩]⟩
     "cls" [3] (by decide)⟩

/-- Claim C9, counterexample: on the no-filtering path (`attr_field` absent)
`filter_gdf` returns the input object itself, not a copy — the returned
reference equals the source reference, and writing an emptied collection
through the returned reference makes the source reference read the emptied
collection.  The source collection is therefore not left unchanged. -/
theorem C9_identity_path_aliases_source :
    (filter_gdf_ref ⟨[gdfNum]⟩ 0 none none).2 = 0 ∧
    ((filter_gdf_ref ⟨[gdfNum]⟩ 0 none none).1.set
        (filter_gdf_ref ⟨[gdfNum]⟩ 0 none none).2 ⟨["cls"], []⟩).get 0 =
      some ⟨["cls"], []⟩ ∧
    (⟨["cls"], []⟩ : GeoDataFrame) ≠ gdfNum := by
  decide

/-- Claim C9 as amended: only the filtered-result path returns a deep,
independent copy — there the returned reference is fresh and mutating it
leaves the source collection unchanged; the no-filtering-requested and
missing-field paths return the input collection itself (an alias). -/
theorem C9_copy_only_on_filtered_path (h : Heap) (r : Ref) (gdf x : GeoDataFrame)
    (attr_field : Option String) (attr_vals : Option (List PyVal))
    (hr : h.get r = some gdf) :
    (∀ g, filter_gdf_core gdf attr_field attr_vals = some g →
      (filter_gdf_ref h r attr_field attr_vals).2 ≠ r ∧
      ((filter_gdf_ref h r attr_field attr_vals).1.set
          (filter_gdf_ref h r attr_field attr_vals).2 x).get r = some gdf) ∧
    (filter_gdf_core gdf attr_field attr_vals = none →
      filter_gdf_ref h r attr_field attr_vals = (h, r)) := by
  have hlen : r < h.cells.length := (List.getElem?_eq_some.mp hr).1
  constructor
  · intro g hg
    have href : filter_gdf_ref h r attr_field attr_vals =
        (⟨h.cells ++ [g]⟩, h.cells.length) := by
      rw [filter_gdf_ref]
      simp only [hr, hg]
      rfl
    rw [href]
    refine ⟨hlen.ne', ?_⟩
    show ((h.cells ++ [g]).set h.cells.length x)[r]? = some gdf
    rw [List.getElem?_set_ne hlen.ne', List.getElem?_append, if_pos hlen]
    exact hr
  · intro hg
    rw [filter_gdf_ref]
    simp only [hr, hg]

/-- Witness for C9's amended theorem: a one-cell heap, an actual class
filter (field "cls", accepted value 3), and an emptying mutation of the
returned copy. -/
theorem C9_copy_only_on_filtered_path_witness :
    (⟨[gdfNum]⟩ : Heap).get 0 = some gdfNum ∧
    ((∀ g, filter_gdf_core gdfNum (some "cls") (some [PyVal.int 3]) = some g →
      (filter_gdf_ref ⟨[gdfNum]⟩ 0 (some "cls") (some [PyVal.int 3])).2 ≠ 0 ∧
      ((filter_gdf_ref ⟨[gdfNum]⟩ 0 (some "cls") (some [PyVal.int 3])).1.set
          (filter_gdf_ref ⟨[gdfNum]⟩ 0 (some "cls") (some [PyVal.int 3])).2
          ⟨["cls"], []⟩).get 0 = some gdfNum) ∧
     (filter_gdf_core gdfNum (some "cls") (some [PyVal.int 3]) = none →
      filter_gdf_ref ⟨[gdfNum]⟩ 0 (some "cls") (some [PyVal.int 3]) = (⟨[gdfNum]⟩, 0))) :=
  ⟨rfl,
   C9_copy_only_on_filtered_path ⟨[gdfNum]⟩ 0 gdfNum ⟨["cls"], []⟩
     (some "cls") (some [PyVal.int 3]) rfl⟩

/-- One step of the validation loop keeps the flag once it is raised. -/
theorem gateStep_true (env : CrsEnv) (r : SourceRecord) : gateStep env true r = true := by
  rcases hg : r.gpkg with _ | g <;> simp [gateStep, hg]

/-- Once raised, the flag survives the rest of the validation loop. -/
theorem foldl_gateStep_true (env : CrsEnv) (l : List SourceRecord) :
    l.foldl (gateStep env) true = true := by
  induction l with
  | nil => rfl
  | cons a l ih => rw [List.foldl_cons, gateStep_true]; exact ih

/-- If some record of the run has no label source, the validation loop ends
with the flag raised, whatever the accumulator was when it is met. -/
theorem foldl_gateStep_of_mem (env : CrsEnv) (l : List SourceRecord)
    (q : SourceRecord) (hq : q ∈ l) (hnone : q.gpkg = none) (b : Bool) :
    l.foldl (gateStep env) b = true := by
  induction l generalizing b with
  | nil => cases hq
  | cons a l ih =>
    rw [List.foldl_cons]
    rcases List.mem_cons.mp hq with rfl | hq2
    · rw [show gateStep env b q = true by rw [gateStep, hnone]]
      exact foldl_gateStep_true env l
    · exact ih hq2 _

/-- Claim C10 (confirmed): if any single record of the run lacks a label
source, the `no_gt` flag set during validation is global: for every record
of the run — including records that do have a label source — no label-tile
output directory is created and no label tiling is performed. -/
theorem C10_no_gt_flag_is_global (env : CrsEnv) (records : List SourceRecord)
    (q r : SourceRecord) (hq : q ∈ records) (hnone : q.gpkg = none)
    (smpls_dir : String) (act_img act_gt exp_tiles : Nat) :
    no_gt_flag env records = true ∧
    outGtDir (no_gt_flag env records) smpls_dir r = none ∧
    recordLabelTiled (no_gt_flag env records) r act_img act_gt exp_tiles smpls_dir = false := by
  have hflag : no_gt_flag env records = true := foldl_gateStep_of_mem env records q hq hnone false
  refine ⟨hflag, ?_, ?_⟩
  · rw [hflag]
    rfl
  · rw [hflag, recordLabelTiled]
    simp [labelTilingRuns, outGtDir]

/-- Witness for C10: a two-record run whose first record has no label source;
the second record does have one, yet its label tiling is off. -/
theorem C10_no_gt_flag_is_global_witness :
    (⟨"b.tif", none, "trn", none⟩ : SourceRecord) ∈
      [⟨"b.tif", none, "trn", none⟩, recPaired] ∧
    (⟨"b.tif", none, "trn", none⟩ : SourceRecord).gpkg = none ∧
    (no_gt_flag envMismatch [⟨"b.tif", none, "trn", none⟩, recPaired] = true ∧
     outGtDir (no_gt_flag envMismatch [⟨"b.tif", none, "trn", none⟩, recPaired])
       "/data" recPaired = none ∧
     recordLabelTiled (no_gt_flag envMismatch [⟨"b.tif", none, "trn", none⟩, recPaired])
       recPaired 0 0 4 "/data" = false) :=
  ⟨List.mem_cons_self _ _, rfl,
   C10_no_gt_flag_is_global envMismatch [⟨"b.tif", none, "trn", none⟩, recPaired]
     ⟨"b.tif", none, "trn", none⟩ recPaired (List.mem_cons_self _ _) rfl "/data" 0 0 4⟩

end DataToTiles
